import Mathlib

/-!
Verification of the cooking-method detection, per-method time extraction and
time-reconciliation core of `scripts/scrape-recipe.py` (HoneyDo repository).

The Python functions `detect_cooking_methods`, `extract_stovetop_time_from_instructions`,
`extract_slow_cooker_time`, `extract_instant_pot_time` and the reconciliation part of
`scrape_recipe` are embedded shallowly.  Python's `re` usage is modelled by a small
backtracking matcher (`mRE`) over the exact regular expressions of the script:
ordered alternation, greedy and lazy star, optional groups, capture groups and the
one negative lookahead, with leftmost-first search semantics matching CPython's.
Python integers become `Nat`; `None`-able values become `Option`; Python truthiness
(`if x:` being false for both `None` and `0`) is modelled explicitly at each use site.
-/

set_option maxRecDepth 4096

namespace Honeydo

/-- ASCII whitespace recognised by Python's regex class `\s` (on ASCII text). -/
def isSpaceChar (c : Char) : Bool :=
  c == ' ' || c == '\t' || c == '\n' || c == '\r' || c == '\x0b' || c == '\x0c'

/-- Capture-group records: `(group index, start offset, end offset)`, most recent first. -/
abbrev Caps := List (Nat × Nat × Nat)

/-- The regular-expression fragment used by `scrape-recipe.py`:
character classes, concatenation, ordered alternation, capture groups,
greedy option `(...)?`, greedy star, lazy star `.*?`, negative lookahead `(?!...)`. -/
inductive RE where
  | eps : RE
  | cls : (Char → Bool) → RE
  | cat : RE → RE → RE
  | alt : RE → RE → RE
  | grp : Nat → RE → RE
  | optG : RE → RE
  | starG : RE → RE
  | starL : RE → RE
  | nla : RE → RE

/-- Backtracking matcher in continuation-passing style.  `s` is the remaining
input, `i` the absolute offset of `s` in the text, `g` the captures collected on
the current backtracking branch, and `k` the continuation.  Alternatives are
tried in order and the first overall success wins, which is exactly CPython's
backtracking order (greedy star consumes as much as possible first, lazy star as
little as possible first).  `fuel` only forces termination; every star body in
the embedded patterns consumes at least one character per iteration, so the
generous budget used by `reMatchAt` is never exhausted. -/
def mRE : Nat → RE → List Char → Nat → Caps →
    (List Char → Nat → Caps → Option (Nat × Caps)) → Option (Nat × Caps)
  | 0, _, _, _, _, _ => none
  | fuel + 1, re, s, i, g, k =>
    match re with
    | .eps => k s i g
    | .cls p =>
      match s with
      | [] => none
      | c :: s2 => if p c then k s2 (i + 1) g else none
    | .cat a b => mRE fuel a s i g (fun s2 i2 g2 => mRE fuel b s2 i2 g2 k)
    | .alt a b =>
      match mRE fuel a s i g k with
      | some r => some r
      | none => mRE fuel b s i g k
    | .grp n a => mRE fuel a s i g (fun s2 i2 g2 => k s2 i2 ((n, i, i2) :: g2))
    | .optG a =>
      match mRE fuel a s i g k with
      | some r => some r
      | none => k s i g
    | .starG a =>
      match mRE fuel a s i g
          (fun s2 i2 g2 => if i < i2 then mRE fuel (.starG a) s2 i2 g2 k else none) with
      | some r => some r
      | none => k s i g
    | .starL a =>
      match k s i g with
      | some r => some r
      | none =>
        mRE fuel a s i g
          (fun s2 i2 g2 => if i < i2 then mRE fuel (.starL a) s2 i2 g2 k else none)
    | .nla a =>
      match mRE fuel a s i g (fun _ i2 g2 => some (i2, g2)) with
      | some _ => none
      | none => k s i g

/-- Try to match `re` at absolute position `i` of `t`; on success return the
end position and the captures (like a Python `Match` anchored at `i`). -/
def reMatchAt (re : RE) (t : List Char) (i : Nat) : Option (Nat × Caps) :=
  mRE (t.length + 500) re (t.drop i) i [] (fun _ i2 g2 => some (i2, g2))

/-- Scan positions `i, i+1, ...` for the leftmost match (at most `f` positions). -/
def searchAux (re : RE) (t : List Char) : Nat → Nat → Option (Nat × Nat × Caps)
  | 0, _ => none
  | f + 1, i =>
    match reMatchAt re t i with
    | some (e, g) => some (i, e, g)
    | none => searchAux re t f (i + 1)

/-- Python `re.search`: leftmost match of `re` in `t`, as `(start, end, captures)`. -/
def reSearch (re : RE) (t : List Char) : Option (Nat × Nat × Caps) :=
  searchAux re t (t.length + 1) 0

/-- Python `re.search` on `t` starting the scan at `pos`. -/
def searchFromPos (re : RE) (t : List Char) (pos : Nat) : Option (Nat × Nat × Caps) :=
  searchAux re t (t.length + 1 - pos) pos

/-- Worker for `findIter`: after a match, resume at its end (or one past the
start for an empty match, as CPython does). -/
def findIterAux (re : RE) (t : List Char) : Nat → Nat → List (Nat × Nat × Caps)
  | 0, _ => []
  | f + 1, pos =>
    match searchFromPos re t pos with
    | none => []
    | some (s, e, g) => (s, e, g) :: findIterAux re t f (if s < e then e else s + 1)

/-- Python `re.finditer`: all non-overlapping matches, leftmost first. -/
def findIter (re : RE) (t : List Char) : List (Nat × Nat × Caps) :=
  findIterAux re t (t.length + 1) 0

/-- Python `match.group(n)` span: the most recent successful capture of group `n`. -/
def getGroup (g : Caps) (n : Nat) : Option (Nat × Nat) :=
  match g.find? (fun c => c.1 == n) with
  | some (_, s, e) => some (s, e)
  | none => none

/-- The text of capture group `n` (as characters of `t`), if the group participated. -/
def groupStr (t : List Char) (g : Caps) (n : Nat) : Option (List Char) :=
  match getGroup g n with
  | some (a, b) => some ((t.drop a).take (b - a))
  | none => none

/-- Python `int(...)` on a string of decimal digits. -/
def parseNat (cs : List Char) : Nat :=
  cs.foldl (fun a c => a * 10 + (c.toNat - 48)) 0

/-- Leftmost index at which `pat` occurs in the text, if any. -/
def subFindAux (pat : List Char) : List Char → Nat → Option Nat
  | [], i => if pat.isEmpty then some i else none
  | c :: t2, i =>
    if List.isPrefixOf pat (c :: t2) then some i else subFindAux pat t2 (i + 1)

/-- Leftmost index of substring `pat` in `t` (Python `str.find`, and `re.search`
for a pattern that is a plain digit string). -/
def subFind (pat : List Char) (t : List Char) : Option Nat :=
  subFindAux pat t 0

/-- Python's `pat in text` substring test. -/
def hasSub (pat : String) (t : List Char) : Bool :=
  (subFind pat.toList t).isSome

/-- A literal string, character by character. -/
def RE.lit (st : String) : RE :=
  st.toList.foldr (fun c r => RE.cat (RE.cls (fun c2 => c2 == c)) r) RE.eps

/-- Concatenation of a list of pieces. -/
def RE.seq (l : List RE) : RE := l.foldr RE.cat RE.eps

/-- Ordered alternation `a|b|c|...` (leftmost alternative preferred). -/
def RE.choice (l : List RE) : RE := l.foldr RE.alt (RE.cls (fun _ => false))

/-- `\s` -/
def sp : RE := RE.cls isSpaceChar

/-- `\s+` -/
def sp1 : RE := RE.cat sp (RE.starG sp)

/-- `\s*` -/
def sps : RE := RE.starG sp

/-- `\d` -/
def digitC : RE := RE.cls Char.isDigit

/-- `(\d+)` as capture group `n`. -/
def numG (n : Nat) : RE := RE.grp n (RE.cat digitC (RE.starG digitC))

/-- `\d+` without capture. -/
def numNC : RE := RE.cat digitC (RE.starG digitC)

/-- `.*?` (`.` does not match a newline, as in Python without `re.DOTALL`). -/
def dotAnyL : RE := RE.starL (RE.cls (fun c => c != '\n'))

/-- `.*` -/
def dotAnyG : RE := RE.starG (RE.cls (fun c => c != '\n'))

/-- `(?:\s*(?:to|-)\s*(\d+))?` with the inner number captured as group `n`. -/
def rangeTo (n : Nat) : RE :=
  RE.optG (RE.seq [sps, RE.alt (RE.lit "to") (RE.lit "-"), sps, numG n])

/-- `(?:for\s+)?` (capturing in the source where noted; captures other than the
numeric groups are never read by the script, so they are embedded uncaptured). -/
def optFor : RE := RE.optG (RE.seq [RE.lit "for", sp1])

/-- `(?:about\s+)?` -/
def optAbout : RE := RE.optG (RE.seq [RE.lit "about", sp1])

/-- `(?:the\s+)?` -/
def optThe : RE := RE.optG (RE.seq [RE.lit "the", sp1])

/-- `minutes?` -/
def minutesW : RE := RE.seq [RE.lit "minute", RE.optG (RE.lit "s")]

/-- `hours?` -/
def hoursW : RE := RE.seq [RE.lit "hour", RE.optG (RE.lit "s")]

/-! ### The pattern lists of `detect_cooking_methods` (scrape-recipe.py lines 39-126) -/

/-- `instant_pot_patterns` -/
def instant_pot_patterns : List RE :=
  [ RE.seq [RE.lit "instant", sps, RE.lit "pot"],
    RE.seq [RE.lit "pressure", sps, RE.lit "cook"],
    RE.seq [RE.lit "high", sps, RE.lit "pressure"],
    RE.seq [RE.lit "manual", dotAnyG, RE.lit "pressure"],
    RE.seq [RE.lit "quick", sps, RE.lit "release"],
    RE.seq [RE.lit "natural", sps, RE.lit "release"],
    RE.seq [RE.lit "sealing", sps, RE.lit "position"],
    RE.seq [RE.lit "venting", sps, RE.lit "position"] ]

/-- `slow_cooker_patterns` -/
def slow_cooker_patterns : List RE :=
  [ RE.seq [RE.lit "slow", sps, RE.lit "cooker"],
    RE.seq [RE.lit "crock", sps, RE.lit "pot"],
    RE.lit "crockpot",
    RE.seq [RE.lit "cook", sp1, RE.lit "on", sp1, optThe,
      RE.alt (RE.lit "low") (RE.lit "high"), sp1,
      RE.optG (RE.seq [RE.lit "setting", sp1]), optFor, numNC, dotAnyG, hoursW] ]

/-- `stovetop_primary_patterns` -/
def stovetop_primary_patterns : List RE :=
  [ RE.seq [RE.lit "simmer", sp1, optFor, numNC, sps, minutesW,
      RE.nla (RE.seq [dotAnyG, RE.lit "slow", sps, RE.lit "cooker"])],
    RE.seq [RE.lit "simmer", sp1, RE.lit "until"],
    RE.seq [RE.lit "cook", sp1, optFor, numNC, sps, minutesW, dotAnyG,
      RE.lit "until", dotAnyG, RE.lit "cooked", sp1, RE.lit "through"],
    RE.seq [RE.lit "reduce", sp1, RE.lit "heat", dotAnyG, RE.lit "simmer"] ]

/-- `stovetop_secondary_patterns` -/
def stovetop_secondary_patterns : List RE :=
  [ RE.seq [RE.optG (RE.seq [RE.lit "large", sp1]),
      RE.alt (RE.lit "skillet") (RE.lit "pan"), sp1, RE.lit "over", sp1,
      RE.choice [RE.lit "medium", RE.lit "high", RE.lit "low"], dotAnyG, RE.lit "brown"],
    RE.lit "sear",
    RE.seq [RE.lit "transfer", dotAnyG, RE.lit "to", sp1, optThe,
      RE.choice [RE.seq [RE.lit "slow", sps, RE.lit "cooker"],
        RE.seq [RE.lit "instant", sps, RE.lit "pot"], RE.lit "oven"]] ]

/-- `general_stovetop_patterns` -/
def general_stovetop_patterns : List RE :=
  [ RE.seq [RE.optG (RE.seq [RE.lit "large", sp1]),
      RE.choice [RE.lit "skillet", RE.lit "pan", RE.lit "pot",
        RE.seq [RE.lit "dutch", sp1, RE.lit "oven"]],
      sp1, RE.lit "over", sp1, RE.choice [RE.lit "medium", RE.lit "high", RE.lit "low"]],
    RE.alt (RE.lit "saute") (RE.lit "sauté"),
    RE.lit "simmer",
    RE.seq [RE.lit "bring", sp1, RE.lit "to", sp1, RE.lit "a", sp1, RE.lit "boil"],
    RE.seq [RE.lit "heat", dotAnyG, RE.lit "over", sp1,
      RE.choice [RE.lit "medium", RE.lit "high", RE.lit "low"]] ]

/-- `oven_patterns` -/
def oven_patterns : List RE :=
  [ RE.seq [RE.lit "preheat", dotAnyG, RE.lit "oven"],
    RE.seq [RE.lit "bake", sp1, optFor, numNC],
    RE.seq [RE.lit "roast", sp1, optFor, numNC],
    RE.seq [RE.lit "transfer", sp1, RE.lit "to", sp1, optThe, RE.lit "oven"] ]

/-! ### The pattern lists of `extract_stovetop_time_from_instructions` (lines 173-225) -/

/-- `stovetop_patterns_start` -/
def stovetop_patterns_start : List RE :=
  [ RE.seq [RE.choice [RE.lit "place a large pot", RE.lit "dutch oven", RE.lit "large skillet"],
      dotAnyL, RE.lit "over", sp1, RE.alt (RE.lit "medium") (RE.lit "high")],
    RE.seq [RE.lit "pot or dutch oven", dotAnyL, RE.lit "over", sp1,
      RE.alt (RE.lit "medium") (RE.lit "high")] ]

/-- `end_patterns` -/
def end_patterns : List RE :=
  [ RE.seq [RE.lit "serve over ", RE.optG (RE.lit "hot "), RE.optG (RE.lit "cooked "), RE.lit "rice"],
    RE.seq [RE.lit "serve ", RE.alt (RE.lit "with") (RE.lit "over")],
    RE.seq [RE.lit "place", sp1, optThe,
      RE.choice [RE.lit "onions", RE.lit "chicken", RE.lit "ingredients"], dotAnyL,
      RE.alt (RE.lit "into") (RE.lit "in"), sp1, optThe,
      RE.optG (RE.seq [RE.lit "inner", sp1, RE.lit "pot", sp1, RE.lit "of", sp1, optThe]),
      RE.lit "instant", sps, RE.lit "pot"],
    RE.seq [RE.lit "place", sp1, RE.lit "the", sp1, RE.lit "lid", sp1, RE.lit "on", sp1,
      RE.lit "the", sp1,
      RE.alt (RE.seq [RE.lit "instant", sps, RE.lit "pot"])
        (RE.seq [RE.lit "slow", sps, RE.lit "cooker"])],
    RE.seq [RE.alt (RE.lit "into") (RE.lit "in"), sp1, RE.lit "the", sp1,
      RE.optG (RE.seq [RE.lit "inner", sp1, RE.lit "pot", sp1, RE.lit "of", sp1, optThe]),
      RE.lit "instant", sps, RE.lit "pot"] ]

/-- `stovetop_time_patterns` (the two numeric captures are groups 1 and 2). -/
def stovetop_time_patterns : List RE :=
  [ RE.seq [RE.lit "simmer", RE.optG (RE.seq [sp1, RE.lit "until"]), dotAnyL, optAbout,
      numG 1, rangeTo 2, sps, minutesW],
    RE.seq [RE.lit "cook", sp1, optFor, numG 1, rangeTo 2, sps, minutesW,
      RE.optG (RE.seq [sp1, RE.lit "or", sp1, RE.lit "until"])],
    RE.seq [RE.lit "saut", RE.optG (RE.lit "é"), sp1, optFor, numG 1, rangeTo 2, sps, minutesW],
    RE.seq [RE.alt (RE.seq [RE.lit "veggie", RE.optG (RE.lit "s"), sp1, RE.lit "are", sp1,
        RE.lit "tender"])
        (RE.seq [RE.lit "stirring", sp1, RE.lit "occasionally"]),
      dotAnyL, numG 1, rangeTo 2, sps, minutesW] ]

/-- `exclude_patterns` (their captures are never read, so they are embedded uncaptured). -/
def exclude_patterns : List RE :=
  [ RE.seq [RE.lit "cool", sp1, optFor, optAbout, numNC],
    RE.seq [RE.lit "let", dotAnyL, RE.lit "sit", dotAnyL, numNC],
    RE.seq [RE.lit "rest", sp1, optFor, optAbout, numNC],
    RE.seq [RE.lit "natural", dotAnyL, RE.lit "release", dotAnyL, numNC],
    RE.seq [RE.lit "pressure", sp1, optFor, numNC],
    RE.seq [RE.lit "high", sp1, RE.lit "pressure", sp1, optFor, numNC],
    RE.seq [RE.alt (RE.lit "after") (RE.lit "wait"), sp1, optAbout, numNC],
    RE.seq [RE.lit "stop", RE.optG (RE.lit "s"), sp1, RE.lit "simmering", dotAnyL,
      RE.alt (RE.lit "after") (RE.lit "about"), sp1, numNC],
    RE.seq [RE.lit "cool", sp1, RE.lit "down", dotAnyL, numNC],
    RE.seq [RE.alt (RE.lit "wait") (RE.lit "let"), sp1, RE.optG (RE.seq [RE.lit "it", sp1]),
      RE.choice [RE.lit "cool", RE.lit "sit", RE.lit "rest"], dotAnyL, numNC] ]

/-- The `patterns` list of `extract_slow_cooker_time` (lines 273-277). -/
def slow_cooker_time_patterns : List RE :=
  [ RE.seq [RE.lit "cook", sp1, RE.lit "on", sp1, optThe, RE.lit "low", sp1,
      RE.optG (RE.seq [RE.lit "setting", sp1]), optFor, numG 1, rangeTo 2, sps, hoursW],
    RE.seq [RE.lit "cook", sp1, RE.lit "on", sp1, optThe, RE.lit "high", sp1,
      RE.optG (RE.seq [RE.lit "setting", sp1]), optFor, numG 1, rangeTo 2, sps, hoursW],
    RE.seq [RE.lit "slow", sp1, RE.lit "cook", dotAnyL, numG 1, rangeTo 2, sps, hoursW] ]

/-- The `patterns` list of `extract_instant_pot_time` (lines 296-300). -/
def instant_pot_time_patterns : List RE :=
  [ RE.seq [RE.alt (RE.lit "cook") (RE.lit "pressure"), sp1,
      RE.optG (RE.seq [RE.lit "on", sp1]), RE.optG (RE.seq [RE.lit "high", sp1]),
      RE.optG (RE.seq [RE.lit "pressure", sp1]), optFor, numG 1, sps, minutesW],
    RE.seq [RE.lit "manual", dotAnyL, numG 1, sps, minutesW],
    RE.seq [RE.lit "high", sp1, RE.lit "pressure", dotAnyL, numG 1, sps, minutesW] ]

/-! ### The method detector (`detect_cooking_methods`, lines 20-149) -/

/-- The four boolean keys of the `methods` dict, in insertion order
`instant_pot, slow_cooker, stovetop, oven` (the fifth key `primary_method`
is carried separately as an `Option Method`). -/
structure MethodFlags where
  instant_pot : Bool
  slow_cooker : Bool
  stovetop : Bool
  oven : Bool
  deriving DecidableEq

/-- The four cooking-method names. -/
inductive Method where
  | instant_pot
  | slow_cooker
  | stovetop
  | oven
  deriving DecidableEq

/-- The flag of `f` named by `m`. -/
def methodFlag (f : MethodFlags) : Method → Bool
  | .instant_pot => f.instant_pot
  | .slow_cooker => f.slow_cooker
  | .stovetop => f.stovetop
  | .oven => f.oven

/-- `text = " ".join(instructions).lower()` (lines 36, 160, 270, 294). -/
def joinedText (instructions : List String) : List Char :=
  (String.intercalate " " instructions).toList.map Char.toLower

/-- A `for pattern in ...: if re.search(...): flag = True; break` loop, as a boolean. -/
def anyMatch (ps : List RE) (t : List Char) : Bool :=
  ps.any (fun p => (reSearch p t).isSome)

/-- Lines 82-114: the stovetop flag.  The first `if/elif` sets the flag when a
primary-stovetop signal is present and either no special appliance is flagged
or nothing transfers to another appliance; the second `if` (general stovetop
fallback) can additionally set it when no special appliance is flagged. -/
def stovetopFlagOf (t : List Char) (slow_cooker instant_pot : Bool) : Bool :=
  let has_primary_stovetop := anyMatch stovetop_primary_patterns t
  let transfers_to_other := anyMatch stovetop_secondary_patterns t
  let st :=
    if has_primary_stovetop && !(slow_cooker || instant_pot) then true
    else if has_primary_stovetop && !transfers_to_other then true
    else false
  if !slow_cooker && !instant_pot then
    if anyMatch general_stovetop_patterns t then true else st
  else st

/-- Line 135: `sum(1 for k, v in methods.items() if v)`.  When the detector
runs this, `primary_method` is still `None` (falsy), so only the four boolean
flags are counted; line 404 of `scrape_recipe` runs the same count after
`primary_method` has been popped, so both sites count exactly these flags. -/
def methodCount (f : MethodFlags) : Nat :=
  (if f.instant_pot then 1 else 0) + (if f.slow_cooker then 1 else 0) +
    (if f.stovetop then 1 else 0) + (if f.oven then 1 else 0)

/-- Lines 137-147: the primary-method cascade. -/
def determinePrimary (f : MethodFlags) : Option Method :=
  if 1 < methodCount f ∧ f.stovetop then some Method.stovetop
  else if f.stovetop then some Method.stovetop
  else if f.oven then some Method.oven
  else if f.slow_cooker then some Method.slow_cooker
  else if f.instant_pot then some Method.instant_pot
  else none

/-- Lines 36-126: the four method flags computed from the joined lowercase text. -/
def detectFlags (instructions : List String) : MethodFlags :=
  let t := joinedText instructions
  let instant_pot := anyMatch instant_pot_patterns t
  let slow_cooker := anyMatch slow_cooker_patterns t
  let stovetop := stovetopFlagOf t slow_cooker instant_pot
  let oven := anyMatch oven_patterns t
  { instant_pot := instant_pot, slow_cooker := slow_cooker, stovetop := stovetop, oven := oven }

/-- `detect_cooking_methods` (lines 20-149): the flags dict together with the
`primary_method` entry. -/
def detect_cooking_methods (instructions : List String) : MethodFlags × Option Method :=
  let f := detectFlags instructions
  (f, determinePrimary f)

/-! ### The stovetop time extractor (`extract_stovetop_time_from_instructions`, lines 152-262) -/

/-- Lines 184-195: the end of the isolated stovetop section: the minimum over
all end patterns of `start + end_match.start()` found in `text[start:]`,
defaulting to `len(text)`. -/
def sectionEndPos (t : List Char) (start : Nat) : Nat :=
  end_patterns.foldl
    (fun e p =>
      match reSearch p (t.drop start) with
      | some (ms, _, _) => min e (start + ms)
      | none => e)
    t.length

/-- Lines 164-201: when the text mentions an instant pot or slow cooker, try to
isolate the stovetop section between the first matching start anchor and the
nearest end anchor; otherwise (or if no start anchor matches) use the full text. -/
def stovetopSearchScope (t : List Char) : List Char :=
  if hasSub "instant pot" t || hasSub "slow cooker" t then
    match stovetop_patterns_start.findSome? (fun p => reSearch p t) with
    | some (s, _, _) => (t.drop s).take (sectionEndPos t s - s)
    | none => t
  else t

/-- The `search_text` of the extractor for a given instruction list. -/
def stovetopSearchText (instructions : List String) : List Char :=
  stovetopSearchScope (joinedText instructions)

/-- Lines 230-231: all matches of all four stovetop time patterns, pattern by
pattern, each pattern's matches found by `re.finditer` leftmost first. -/
def rawTimeMatches (t : List Char) : List (Nat × Nat × Caps) :=
  (stovetop_time_patterns.map (fun p => findIter p t)).flatten

/-- Line 235: `search_text[max(0, match_start-30):match.end()+10]` (note that the
first component of `m` is the match start and `m.2.1` its end; `Nat` subtraction
clamps at `0` exactly as `max(0, ...)` does and `take` clamps at the end of the
text exactly as a Python slice does). -/
def matchWindow (t : List Char) (m : Nat × Nat × Caps) : List Char :=
  (t.drop (m.1 - 30)).take (m.2.1 + 10 - (m.1 - 30))

/-- Lines 237-241: does any exclusion pattern match the surrounding window? -/
def isExcludedMatch (t : List Char) (m : Nat × Nat × Caps) : Bool :=
  exclude_patterns.any (fun ex => (reSearch ex (matchWindow t m)).isSome)

/-- Lines 244-247: `int(groups[1]) if len(groups) > 1 and groups[1] else int(groups[0])`.
Every stovetop time pattern has exactly the two numeric groups, group 1 mandatory
and group 2 inside the optional range suffix. -/
def minsOfMatch (t : List Char) (m : Nat × Nat × Caps) : Option Nat :=
  match groupStr t m.2.2 2 with
  | some ds => some (parseNat ds)
  | none =>
    match groupStr t m.2.2 1 with
    | some ds => some (parseNat ds)
    | none => none

/-- Lines 250-252: `re.search(str(mins), match.group())`, giving the absolute
position of the numeric token inside the match. -/
def numPosOfMatch (t : List Char) (m : Nat × Nat × Caps) (mins : Nat) : Option Nat :=
  match subFind (Nat.repr mins).toList ((t.drop m.1).take (m.2.1 - m.1)) with
  | some np => some (m.1 + np)
  | none => none

/-- Lines 233-255: processing of one match against the accumulated
`found_times_with_pos` dict (an insertion-ordered position-keyed map). -/
def candStep (t : List Char) (acc : List (Nat × Nat)) (m : Nat × Nat × Caps) :
    List (Nat × Nat) :=
  if isExcludedMatch t m then acc
  else
    match minsOfMatch t m with
    | none => acc
    | some mins =>
      if mins ≤ 60 then
        match numPosOfMatch t m mins with
        | some numPos =>
          if acc.any (fun kv => kv.1 == numPos) then acc else acc ++ [(numPos, mins)]
        | none => acc
      else acc

/-- The final `found_times_with_pos` dict, as an insertion-ordered list. -/
def stovetopCandidates (instructions : List String) : List (Nat × Nat) :=
  let t := stovetopSearchText instructions
  (rawTimeMatches t).foldl (candStep t) []

/-- `sum(found_times_with_pos.values())` -/
def sumMins (c : List (Nat × Nat)) : Nat :=
  (c.map (fun kv => kv.2)).sum

/-- `extract_stovetop_time_from_instructions` (lines 152-262). -/
def extract_stovetop_time_from_instructions (instructions : List String) : Option Nat :=
  let c := stovetopCandidates instructions
  if c.isEmpty then none else some (min (sumMins c) 90)

/-! ### The slow cooker and instant pot extractors (lines 265-307) -/

/-- `extract_slow_cooker_time` (lines 265-286): first pattern with a match wins;
`int(match.group(2)) if match.group(2) else int(match.group(1))`, times 60. -/
def extract_slow_cooker_time (instructions : List String) : Option Nat :=
  let t := joinedText instructions
  match slow_cooker_time_patterns.findSome? (fun p => reSearch p t) with
  | some (_, _, g) =>
    let hours :=
      match groupStr t g 2 with
      | some ds => parseNat ds
      | none =>
        match groupStr t g 1 with
        | some ds => parseNat ds
        | none => 0
    some (hours * 60)
  | none => none

/-- `extract_instant_pot_time` (lines 289-307): first pattern with a match wins;
the value is `int(match.group(1))`. -/
def extract_instant_pot_time (instructions : List String) : Option Nat :=
  let t := joinedText instructions
  match instant_pot_time_patterns.findSome? (fun p => reSearch p t) with
  | some (_, _, g) =>
    match groupStr t g 1 with
    | some ds => some (parseNat ds)
    | none => none
  | none => none

/-! ### The time reconciler (`scrape_recipe`, lines 347-447)

Provider-declared times are non-negative integer minutes when present.  Python's
truthiness test `if x:` is false both for `None` and for `0`; on an `Option Nat`
this is exactly `x.getD 0 ≠ 0`, which is how each `if data[...]:` test below is
embedded. -/

/-- Lines 347-356: the provider `cookTime` sanity check.  `data["cookTime"]`
starts as `None` and is only assigned when `cook_time` is truthy and at most
1440; a truthy value above 1440 is explicitly discarded. -/
def sanitizeCookTime : Option Nat → Option Nat
  | some c => if c ≠ 0 ∧ c ≤ 1440 then some c else none
  | none => none

/-- Lines 363-367: if `cookTime` is `None` and both `totalTime` and `prepTime`
are truthy, set `cookTime = totalTime - prepTime` when that is strictly positive. -/
def deriveCookTime (cook total prep : Option Nat) : Option Nat :=
  match cook with
  | some c => some c
  | none =>
    match total, prep with
    | some t, some p => if t ≠ 0 ∧ p ≠ 0 ∧ p < t then some (t - p) else none
    | _, _ => none

/-- The fields of the output record that the reconciliation step can touch. -/
structure ReconOut where
  cookTime : Option Nat
  totalTime : Option Nat
  methodWarning : Option String
  deriving DecidableEq

/-- Lines 403-447: the branch of `scrape_recipe` that reconciles the detected
methods and extracted estimates with the (already sanitized and derived)
provider times, producing the final `cookTime`, `totalTime` and `methodWarning`. -/
def reconcileTimes (flags : MethodFlags) (primary : Option Method)
    (stovetop_time slow_cooker_time instant_pot_time : Option Nat)
    (prepTime cookTime totalTime : Option Nat) : ReconOut :=
  let has_multiple_methods := 1 < methodCount flags
  let has_special_appliance := flags.instant_pot || flags.slow_cooker
  if primary = some Method.stovetop ∧ has_multiple_methods ∧ has_special_appliance then
    -- line 410: `if stovetop_time and stovetop_time > 10:`
    if 10 < stovetop_time.getD 0 then
      let st := stovetop_time.getD 0
      let other_methods : List String :=
        (if flags.instant_pot then
          [if instant_pot_time.getD 0 ≠ 0 then
            "Instant Pot (" ++ Nat.repr (instant_pot_time.getD 0) ++ "min)"
          else "Instant Pot"]
        else []) ++
        (if flags.slow_cooker then
          ["Slow Cooker (" ++
            (if slow_cooker_time.getD 0 ≠ 0 then Nat.repr (slow_cooker_time.getD 0 / 60)
             else "?") ++ "hr)"]
        else [])
      { cookTime := some st
        totalTime := if prepTime.getD 0 ≠ 0 then some (prepTime.getD 0 + st) else some st
        methodWarning := some ("Using STOVETOP time (" ++ Nat.repr st ++
          "min). Also available: " ++ String.intercalate ", " other_methods) }
    else
      { cookTime := cookTime, totalTime := totalTime
        methodWarning := some "Multiple methods available but couldn\x27t extract stovetop time. Check instructions." }
  else if primary = some Method.slow_cooker then
    if slow_cooker_time.getD 0 ≠ 0 then
      let sc := slow_cooker_time.getD 0
      { cookTime := some sc
        totalTime := if prepTime.getD 0 ≠ 0 then some (prepTime.getD 0 + sc) else some sc
        methodWarning := some ("⚠️ SLOW COOKER recipe (" ++ Nat.repr (sc / 60) ++
          " hours). Plan ahead or find a stovetop alternative.") }
    else
      { cookTime := cookTime, totalTime := totalTime
        methodWarning := some "⚠️ SLOW COOKER recipe detected. Check instructions for actual cook time." }
  else if primary = some Method.instant_pot then
    -- line 446: `ip_time = instant_pot_time or data["cookTime"] or "?"`
    let ipStr : String :=
      if instant_pot_time.getD 0 ≠ 0 then Nat.repr (instant_pot_time.getD 0)
      else if cookTime.getD 0 ≠ 0 then Nat.repr (cookTime.getD 0)
      else "?"
    { cookTime := cookTime, totalTime := totalTime
      methodWarning := some ("⚠️ INSTANT POT recipe (" ++ ipStr ++
        "min pressure). No stovetop alternative found.") }
  else
    { cookTime := cookTime, totalTime := totalTime, methodWarning := none }

/-- Line 396: `[k for k, v in methods.items() if v and k != "primary_method"]`,
run after `primary_method` has been popped from the dict (line 393), so the
items are exactly the four flags in insertion order. -/
def detected_method (f : MethodFlags) : List String :=
  (([("instant_pot", f.instant_pot), ("slow_cooker", f.slow_cooker),
     ("stovetop", f.stovetop), ("oven", f.oven)].filter
    (fun kv => kv.2 && kv.1 != "primary_method")).map (fun kv => kv.1))

/-- The output fields of `scrape_recipe` that the core computes. -/
structure ScrapeOut where
  prepTime : Option Nat
  cookTime : Option Nat
  totalTime : Option Nat
  cookingMethods : MethodFlags
  detectedMethod : List String
  methodWarning : Option String
  deriving DecidableEq

/-- The in-memory core of `scrape_recipe` (lines 341-449): provider-time
sanitation and derivation, method detection, the three extractions and the
reconciliation, given the already-scraped instruction list and provider times. -/
def scrape_recipe_core (instructions : List String) (prep cook total : Option Nat) :
    ScrapeOut :=
  let cook2 := deriveCookTime (sanitizeCookTime cook) total prep
  let det := detect_cooking_methods instructions
  let r := reconcileTimes det.1 det.2
    (extract_stovetop_time_from_instructions instructions)
    (extract_slow_cooker_time instructions)
    (extract_instant_pot_time instructions)
    prep cook2 total
  { prepTime := prep, cookTime := r.cookTime, totalTime := r.totalTime,
    cookingMethods := det.1, detectedMethod := detected_method det.1,
    methodWarning := r.methodWarning }

/-! ### Helper lemmas -/

/-- The primary-method cascade, for every flag combination: rules 1 and 2 of the
tie-break collapse to "stovetop whenever its flag is set", and the chosen primary
always has its flag set. -/
theorem determinePrimary_spec (a b c d : Bool) :
    determinePrimary ⟨a, b, c, d⟩ =
      (if c then some Method.stovetop
       else if d then some Method.oven
       else if b then some Method.slow_cooker
       else if a then some Method.instant_pot
       else none) ∧
    (determinePrimary ⟨a, b, c, d⟩).all (methodFlag ⟨a, b, c, d⟩) = true := by
  cases a <;> cases b <;> cases c <;> cases d <;> exact ⟨rfl, rfl⟩

/-- A match whose surrounding window fires an exclusion pattern contributes
nothing to the accumulated candidate map. -/
theorem candStep_of_excluded (t : List Char) (acc : List (Nat × Nat))
    (m : Nat × Nat × Caps) (h : isExcludedMatch t m = true) :
    candStep t acc m = acc := by
  simp [candStep, h]

/-- Folding the candidate step over a match list gives the same result as first
deleting every window-excluded match. -/
theorem foldl_candStep_filter (t : List Char) (l : List (Nat × Nat × Caps)) :
    ∀ acc : List (Nat × Nat),
      l.foldl (candStep t) acc =
        (l.filter (fun m => !isExcludedMatch t m)).foldl (candStep t) acc := by
  induction l with
  | nil => intro acc; rfl
  | cons m l ih =>
    intro acc
    by_cases h : isExcludedMatch t m = true
    · rw [List.foldl_cons, candStep_of_excluded t acc m h, List.filter_cons]
      simp [h, ih]
    · rw [List.foldl_cons, List.filter_cons]
      simp only [Bool.not_eq_true] at h
      simp [h, ih]

/-- Every entry placed in the candidate map by one step either was already
there or carries a minute value of at most 60. -/
theorem mem_candStep (t : List Char) (acc : List (Nat × Nat)) (m : Nat × Nat × Caps)
    (x : Nat × Nat) (hx : x ∈ candStep t acc m) : x ∈ acc ∨ x.2 ≤ 60 := by
  unfold candStep at hx
  split at hx
  · exact Or.inl hx
  · split at hx
    · exact Or.inl hx
    · rename_i mins heq
      split at hx
      · split at hx
        · rename_i numPos hnp
          split at hx
          · exact Or.inl hx
          · rcases List.mem_append.1 hx with h | h
            · exact Or.inl h
            · rename_i hle _ _
              right
              have : x = (numPos, mins) := by simpa using h
              simpa [this] using hle
        · exact Or.inl hx
      · exact Or.inl hx

/-- The ≤ 60 bound is preserved by the whole fold. -/
theorem foldl_candStep_le60 (t : List Char) (l : List (Nat × Nat × Caps)) :
    ∀ acc : List (Nat × Nat), (∀ x ∈ acc, x.2 ≤ 60) →
      ∀ x ∈ l.foldl (candStep t) acc, x.2 ≤ 60 := by
  induction l with
  | nil => intro acc hacc x hx; exact hacc x hx
  | cons m l ih =>
    intro acc hacc x hx
    refine ih (candStep t acc m) ?_ x hx
    intro y hy
    rcases mem_candStep t acc m y hy with h | h
    · exact hacc y h
    · exact h

/-! ### The claims -/

/-- Claim C1: for every instruction set the detector assigns `primary_method`
by the fixed tie-break order — stovetop whenever the stovetop flag is true
(rules 1 and 2 of the cascade collapse to this), else oven if flagged, else
slow_cooker if flagged, else instant_pot if flagged, else absent — and
consequently the primary method, when present, always names a method whose
flag is true. -/
theorem c1_primary_method_tiebreak (instructions : List String) :
    (detect_cooking_methods instructions).2 =
      (if (detect_cooking_methods instructions).1.stovetop then some Method.stovetop
       else if (detect_cooking_methods instructions).1.oven then some Method.oven
       else if (detect_cooking_methods instructions).1.slow_cooker then some Method.slow_cooker
       else if (detect_cooking_methods instructions).1.instant_pot then some Method.instant_pot
       else none) ∧
    (detect_cooking_methods instructions).2.all
      (methodFlag (detect_cooking_methods instructions).1) = true :=
  determinePrimary_spec (detectFlags instructions).instant_pot
    (detectFlags instructions).slow_cooker (detectFlags instructions).stovetop
    (detectFlags instructions).oven

/-- Claim C4: a candidate duration whose surrounding window (about 30 characters
before the match and 10 after) also matches a cooling/resting/release/waiting
exclusion phrase never contributes to the stovetop aggregate: the candidate fold
equals the fold over the match list with all window-excluded matches deleted.
Concretely, on "Simmer the sauce. Let cool for 10 minutes." the lone simmer
match spans the cooling phrase, its window fires the exclusion patterns, and the
extractor returns nothing, even though "simmer" appears right next to the
duration; on "Simmer for 20 minutes. Let cool for 10 minutes." the cooling
duration again contributes nothing and only the genuine 20-minute simmer
survives. -/
theorem c4_exclusion_property :
    (∀ instructions : List String,
      stovetopCandidates instructions =
        ((rawTimeMatches (stovetopSearchText instructions)).filter
          (fun m => !isExcludedMatch (stovetopSearchText instructions) m)).foldl
          (candStep (stovetopSearchText instructions)) []) ∧
    extract_stovetop_time_from_instructions
      ["Simmer the sauce. Let cool for 10 minutes."] = none ∧
    extract_stovetop_time_from_instructions
      ["Simmer for 20 minutes. Let cool for 10 minutes."] = some 20 :=
  ⟨fun instructions =>
    foldl_candStep_filter (stovetopSearchText instructions)
      (rawTimeMatches (stovetopSearchText instructions)) [],
   by decide, by decide⟩

/-- Claim C5: the stovetop extractor discards any single candidate over 60
minutes (every surviving candidate is ≤ 60), its result never exceeds 90, and
whenever the sum of the surviving unique candidates exceeds 90 it returns
exactly 90. -/
theorem c5_stovetop_clamp :
    (∀ instructions : List String, ∀ x ∈ stovetopCandidates instructions, x.2 ≤ 60) ∧
    (∀ instructions : List String, ∀ n : Nat,
      extract_stovetop_time_from_instructions instructions = some n → n ≤ 90) ∧
    (∀ instructions : List String, 90 < sumMins (stovetopCandidates instructions) →
      extract_stovetop_time_from_instructions instructions = some 90) := by
  refine ⟨?_, ?_, ?_⟩
  · intro instructions x hx
    exact foldl_candStep_le60 (stovetopSearchText instructions)
      (rawTimeMatches (stovetopSearchText instructions)) [] (by intro y hy; cases hy) x hx
  · intro instructions n h
    simp only [extract_stovetop_time_from_instructions] at h
    split at h
    · cases h
    · cases h
      exact Nat.min_le_right _ _
  · intro instructions h
    simp only [extract_stovetop_time_from_instructions]
    split
    · rename_i hemp
      rw [List.isEmpty_iff] at hemp
      rw [hemp] at h
      simp [sumMins] at h
    · rw [Nat.min_eq_right (Nat.le_of_lt h)]

/-- Witness for C5 at a concrete recipe: "Simmer for 50 minutes. Cook for 45
minutes." yields candidates 50 and 45 (each ≤ 60), their sum 95 exceeds 90, and
the extractor returns exactly 90 (which is ≤ 90). -/
theorem c5_stovetop_clamp_witness :
    (50 : Nat) ≤ 60 ∧ (90 : Nat) ≤ 90 ∧
    extract_stovetop_time_from_instructions
      ["Simmer for 50 minutes. Cook for 45 minutes."] = some 90 :=
  ⟨c5_stovetop_clamp.1 ["Simmer for 50 minutes. Cook for 45 minutes."] (11, 50) (by decide),
   c5_stovetop_clamp.2.1 ["Simmer for 50 minutes. Cook for 45 minutes."] 90 (by decide),
   c5_stovetop_clamp.2.2 ["Simmer for 50 minutes. Cook for 45 minutes."] (by decide)⟩

/-- Claim C7: on "Manual, High Pressure, 12 minutes" the instant-pot extractor
(which tries its three patterns in priority order and returns on the first
match — here the `manual … N minutes` pattern) returns 12. -/
theorem c7_instant_pot_manual :
    extract_instant_pot_time ["Manual, High Pressure, 12 minutes"] = some 12 := by
  decide

/-- Claim C2: when the primary method is stovetop, more than one flag is set,
a special appliance is flagged, and the stovetop estimate is present and
greater than 10, the reconciler overrides `cookTime` with the estimate,
recomputes `totalTime` as `prepTime + cookTime` (which, `prepTime` being
treated as 0 when absent or zero, is `prep.getD 0 + s`), and emits the
"Using STOVETOP time (Xmin). Also available: ..." warning listing the flagged
alternatives. -/
theorem c2_stovetop_override (flags : MethodFlags)
    (slow_cooker_est instant_pot_est prep cook total : Option Nat) (s : Nat)
    (hs : 10 < s) (hmulti : 1 < methodCount flags)
    (hspec : (flags.instant_pot || flags.slow_cooker) = true) :
    reconcileTimes flags (some Method.stovetop) (some s) slow_cooker_est instant_pot_est
        prep cook total =
      { cookTime := some s
        totalTime := some (prep.getD 0 + s)
        methodWarning := some ("Using STOVETOP time (" ++ Nat.repr s ++
          "min). Also available: " ++ String.intercalate ", "
            ((if flags.instant_pot then
                [if instant_pot_est.getD 0 ≠ 0 then
                  "Instant Pot (" ++ Nat.repr (instant_pot_est.getD 0) ++ "min)"
                 else "Instant Pot"]
              else []) ++
             (if flags.slow_cooker then
                ["Slow Cooker (" ++
                  (if slow_cooker_est.getD 0 ≠ 0 then Nat.repr (slow_cooker_est.getD 0 / 60)
                   else "?") ++ "hr)"]
              else []))) } := by
  simp only [reconcileTimes]
  rw [if_pos ⟨trivial, hmulti, hspec⟩]
  rw [if_pos (show 10 < (some s : Option Nat).getD 0 from hs)]
  by_cases hp : prep.getD 0 ≠ 0
  · simp [hp]
  · simp only [ne_eq, Decidable.not_not] at hp
    simp [hp]

/-- Witness for C2: the spec's own example — stovetop estimate 25, instant pot
flagged with pressure estimate 10; `cookTime` becomes 25 and the warning
mentions "Instant Pot (10min)". -/
theorem c2_stovetop_override_witness :
    reconcileTimes ⟨true, false, true, false⟩ (some Method.stovetop) (some 25) none (some 10)
        none (some 40) (some 60) =
      { cookTime := some 25, totalTime := some 25,
        methodWarning :=
          some "Using STOVETOP time (25min). Also available: Instant Pot (10min)" } := by
  rw [c2_stovetop_override ⟨true, false, true, false⟩ none (some 10) none (some 40) (some 60)
    25 (by decide) (by decide) (by decide)]
  decide

/-- Claim C3 counterexample: with stovetop and oven flagged (flaggedCount = 2,
greater than 1), primary stovetop, and the override condition not satisfied
because no special appliance is flagged, the reconciler emits NO warning at all,
whereas the claim predicts a multiple-methods warning for every input on which
the override condition fails. -/
theorem c3_counterexample_no_warning :
    1 < methodCount ⟨false, false, true, true⟩ ∧
    (reconcileTimes ⟨false, false, true, true⟩ (some Method.stovetop) (some 25) none none
      (some 10) (some 20) (some 30)).methodWarning = none := by
  decide

/-- Claim C3 (amended): when primary is stovetop, flaggedCount > 1, a special
appliance IS flagged, and the stovetop estimate is absent, zero or at most 10,
the reconciler emits the could-not-extract warning and leaves `cookTime` and
`totalTime` unchanged; when no special appliance is flagged it emits no warning
and changes nothing. -/
theorem c3_no_reliable_stovetop_time (flags : MethodFlags)
    (stovetop_est slow_cooker_est instant_pot_est prep cook total : Option Nat) :
    (1 < methodCount flags → (flags.instant_pot || flags.slow_cooker) = true →
      stovetop_est.getD 0 ≤ 10 →
      reconcileTimes flags (some Method.stovetop) stovetop_est slow_cooker_est instant_pot_est
          prep cook total =
        { cookTime := cook, totalTime := total,
          methodWarning := some "Multiple methods available but couldn\x27t extract stovetop time. Check instructions." }) ∧
    ((flags.instant_pot || flags.slow_cooker) = false →
      reconcileTimes flags (some Method.stovetop) stovetop_est slow_cooker_est instant_pot_est
          prep cook total =
        { cookTime := cook, totalTime := total, methodWarning := none }) := by
  constructor
  · intro hmulti hspec hle
    simp only [reconcileTimes]
    rw [if_pos ⟨trivial, hmulti, hspec⟩, if_neg (by omega)]
  · intro hspec
    simp [reconcileTimes, hspec]

/-- Witness for C3 (amended): instant pot flagged alongside stovetop, no
stovetop estimate extracted — warning emitted, times untouched. -/
theorem c3_no_reliable_stovetop_time_witness :
    reconcileTimes ⟨true, false, true, false⟩ (some Method.stovetop) none none none
        (some 5) (some 20) (some 25) =
      { cookTime := some 20, totalTime := some 25,
        methodWarning := some "Multiple methods available but couldn\x27t extract stovetop time. Check instructions." } :=
  (c3_no_reliable_stovetop_time ⟨true, false, true, false⟩ none none none (some 5) (some 20)
    (some 25)).1 (by decide) (by decide) (by decide)

/-- Claim C6 counterexample: with provider `cookTime` absent, `totalTime = 45`
and `prepTime = 0` — both present, difference 45 strictly positive — the claim
derives `cookTime = 45`, but the code's truthiness test skips the derivation
(Python's `if data["totalTime"] and data["prepTime"]:` is false for `prepTime
= 0`) and leaves `cookTime` absent. -/
theorem c6_counterexample_zero_prep :
    deriveCookTime none (some 45) (some 0) = none ∧
    (deriveCookTime none (some 45) (some 0) == some 45) = false := by
  decide

/-- Claim C6 (amended): a provider `cookTime` above 1440 is discarded before
any other step (and a nonzero one at most 1440 is kept); when `cookTime` is
then absent and `totalTime` and `prepTime` are present AND NONZERO, `cookTime`
is derived as `totalTime − prepTime`, accepted only if strictly positive; a
zero `prepTime` (though present) skips the derivation.  In particular provider
`cookTime = 2000` with `prepTime = 15` and `totalTime = 45` yields 30. -/
theorem c6_provider_time_pipeline :
    (∀ c : Nat, 1440 < c → sanitizeCookTime (some c) = none) ∧
    (∀ c : Nat, c ≠ 0 → c ≤ 1440 → sanitizeCookTime (some c) = some c) ∧
    (∀ t p : Nat, p ≠ 0 → p < t → deriveCookTime none (some t) (some p) = some (t - p)) ∧
    (∀ t p : Nat, t ≤ p → deriveCookTime none (some t) (some p) = none) ∧
    (∀ t : Nat, deriveCookTime none (some t) (some 0) = none) ∧
    deriveCookTime (sanitizeCookTime (some 2000)) (some 45) (some 15) = some 30 := by
  refine ⟨?_, ?_, ?_, ?_, ?_, by decide⟩
  · intro c hc
    simp only [sanitizeCookTime]
    rw [if_neg (by omega)]
  · intro c h0 h1440
    simp only [sanitizeCookTime]
    rw [if_pos ⟨h0, h1440⟩]
  · intro t p hp hlt
    simp only [deriveCookTime]
    rw [if_pos ⟨by omega, hp, hlt⟩]
  · intro t p hle
    simp only [deriveCookTime]
    rw [if_neg (by omega)]
  · intro t
    simp only [deriveCookTime]
    rw [if_neg (by omega)]

/-- Witness for C6 (amended): 2000 is discarded, and 45 − 15 = 30 is derived. -/
theorem c6_provider_time_pipeline_witness :
    sanitizeCookTime (some 2000) = none ∧
    deriveCookTime none (some 45) (some 15) = some 30 :=
  ⟨c6_provider_time_pipeline.1 2000 (by decide),
   c6_provider_time_pipeline.2.2.1 45 15 (by decide) (by decide)⟩

/-- Claim C8: the detector and the three extractors are total Lean functions
(so they can raise no error), and they degrade gracefully: on the empty
instruction list every flag is false, the primary method is absent and every
estimate is absent; whenever no pattern set a flag the primary is absent; and
whenever an extractor's patterns produce no match its estimate is absent. -/
theorem c8_graceful_degradation :
    detect_cooking_methods [] = (⟨false, false, false, false⟩, none) ∧
    extract_stovetop_time_from_instructions [] = none ∧
    extract_slow_cooker_time [] = none ∧
    extract_instant_pot_time [] = none ∧
    (∀ instructions : List String,
      detectFlags instructions = ⟨false, false, false, false⟩ →
      (detect_cooking_methods instructions).2 = none) ∧
    (∀ instructions : List String,
      rawTimeMatches (stovetopSearchText instructions) = [] →
      extract_stovetop_time_from_instructions instructions = none) ∧
    (∀ instructions : List String,
      slow_cooker_time_patterns.findSome?
        (fun p => reSearch p (joinedText instructions)) = none →
      extract_slow_cooker_time instructions = none) ∧
    (∀ instructions : List String,
      instant_pot_time_patterns.findSome?
        (fun p => reSearch p (joinedText instructions)) = none →
      extract_instant_pot_time instructions = none) := by
  refine ⟨by decide, by decide, by decide, by decide, ?_, ?_, ?_, ?_⟩
  · intro instructions h
    show determinePrimary (detectFlags instructions) = none
    rw [h]
    decide
  · intro instructions h
    have hc : stovetopCandidates instructions = [] := by
      simp only [stovetopCandidates, stovetopSearchText] at h ⊢
      rw [h]
      rfl
    simp [extract_stovetop_time_from_instructions, hc]
  · intro instructions h
    simp only [extract_slow_cooker_time]
    rw [h]
  · intro instructions h
    simp only [extract_instant_pot_time]
    rw [h]

/-- Witness for C8 at the pattern-free instruction list `["Hello"]`: no flag,
no primary, no estimate. -/
theorem c8_graceful_degradation_witness :
    (detect_cooking_methods ["Hello"]).2 = none ∧
    extract_stovetop_time_from_instructions ["Hello"] = none ∧
    extract_slow_cooker_time ["Hello"] = none ∧
    extract_instant_pot_time ["Hello"] = none :=
  ⟨c8_graceful_degradation.2.2.2.2.1 ["Hello"] (by decide),
   c8_graceful_degradation.2.2.2.2.2.1 ["Hello"] (by decide),
   c8_graceful_degradation.2.2.2.2.2.2.1 ["Hello"] (by decide),
   c8_graceful_degradation.2.2.2.2.2.2.2 ["Hello"] (by decide)⟩

/-- `detected_method`, for every flag combination: the names of the true flags
in the fixed dict order, never containing `primary_method`. -/
theorem detected_method_spec (a b c d : Bool) :
    detected_method ⟨a, b, c, d⟩ =
      ((if a then ["instant_pot"] else []) ++ (if b then ["slow_cooker"] else []) ++
       (if c then ["stovetop"] else []) ++ (if d then ["oven"] else [])) ∧
    (detected_method ⟨a, b, c, d⟩).contains "primary_method" = false := by
  cases a <;> cases b <;> cases c <;> cases d <;> exact ⟨by decide, by decide⟩

/-- Claim C9: the output field `detectedMethod` is exactly the list of method
names whose flag in `cookingMethods` is true, in the fixed order instant_pot,
slow_cooker, stovetop, oven; `primary_method` is popped from the dict before
either field is built and never appears among the detected methods. -/
theorem c9_detected_method_list (instructions : List String)
    (prep cook total : Option Nat) :
    (scrape_recipe_core instructions prep cook total).detectedMethod =
      ((if (scrape_recipe_core instructions prep cook total).cookingMethods.instant_pot then
          ["instant_pot"] else []) ++
       (if (scrape_recipe_core instructions prep cook total).cookingMethods.slow_cooker then
          ["slow_cooker"] else []) ++
       (if (scrape_recipe_core instructions prep cook total).cookingMethods.stovetop then
          ["stovetop"] else []) ++
       (if (scrape_recipe_core instructions prep cook total).cookingMethods.oven then
          ["oven"] else [])) ∧
    ((scrape_recipe_core instructions prep cook total).detectedMethod.contains
      "primary_method") = false :=
  detected_method_spec (detectFlags instructions).instant_pot
    (detectFlags instructions).slow_cooker (detectFlags instructions).stovetop
    (detectFlags instructions).oven

/-- Claim C10: a zero estimate behaves exactly like an absent one in the
reconciler — a zero slow-cooker estimate (obtainable from "cook on low for 0
hours") yields the generic check-instructions warning and no override; a zero
stovetop estimate never overrides the times; a zero instant-pot estimate falls
through to the cookTime/"?" fallback of the instant-pot warning; and no branch
ever overrides `cookTime` or `totalTime` with a non-positive value. -/
theorem c10_zero_estimates :
    (∀ (flags : MethodFlags) (stovetop_est instant_pot_est prep cook total : Option Nat),
      reconcileTimes flags (some Method.slow_cooker) stovetop_est (some 0) instant_pot_est
          prep cook total =
        { cookTime := cook, totalTime := total,
          methodWarning := some "⚠️ SLOW COOKER recipe detected. Check instructions for actual cook time." }) ∧
    (∀ (flags : MethodFlags) (slow_cooker_est instant_pot_est prep cook total : Option Nat),
      (reconcileTimes flags (some Method.stovetop) (some 0) slow_cooker_est instant_pot_est
          prep cook total).cookTime = cook ∧
      (reconcileTimes flags (some Method.stovetop) (some 0) slow_cooker_est instant_pot_est
          prep cook total).totalTime = total) ∧
    (∀ (flags : MethodFlags) (stovetop_est slow_cooker_est prep cook total : Option Nat),
      reconcileTimes flags (some Method.instant_pot) stovetop_est slow_cooker_est (some 0)
          prep cook total =
        { cookTime := cook, totalTime := total,
          methodWarning := some ("⚠️ INSTANT POT recipe (" ++
            (if cook.getD 0 ≠ 0 then Nat.repr (cook.getD 0) else "?") ++
            "min pressure). No stovetop alternative found.") }) ∧
    (∀ (flags : MethodFlags) (primary : Option Method)
        (stovetop_est slow_cooker_est instant_pot_est prep cook total : Option Nat),
      ((reconcileTimes flags primary stovetop_est slow_cooker_est instant_pot_est
          prep cook total).cookTime = cook ∨
        ∃ v : Nat, 0 < v ∧ (reconcileTimes flags primary stovetop_est slow_cooker_est
          instant_pot_est prep cook total).cookTime = some v) ∧
      ((reconcileTimes flags primary stovetop_est slow_cooker_est instant_pot_est
          prep cook total).totalTime = total ∨
        ∃ v : Nat, 0 < v ∧ (reconcileTimes flags primary stovetop_est slow_cooker_est
          instant_pot_est prep cook total).totalTime = some v)) ∧
    extract_slow_cooker_time ["Cook on low for 0 hours"] = some 0 := by
  refine ⟨?_, ?_, ?_, ?_, by decide⟩
  · intro flags stovetop_est instant_pot_est prep cook total
    simp [reconcileTimes]
  · intro flags slow_cooker_est instant_pot_est prep cook total
    by_cases hm : 1 < methodCount flags
    · rcases Bool.eq_false_or_eq_true (flags.instant_pot || flags.slow_cooker) with hs | hs
      · simp [reconcileTimes, hm, hs]
      · simp [reconcileTimes, hm, hs]
    · simp [reconcileTimes, hm]
  · intro flags stovetop_est slow_cooker_est prep cook total
    simp [reconcileTimes]
  · intro flags primary stovetop_est slow_cooker_est instant_pot_est prep cook total
    simp only [reconcileTimes]
    split
    · rename_i hcond
      split
      · rename_i h10
        refine ⟨Or.inr ⟨stovetop_est.getD 0, by omega, rfl⟩, Or.inr ?_⟩
        by_cases hp : prep.getD 0 ≠ 0
        · exact ⟨prep.getD 0 + stovetop_est.getD 0, by omega, by simp [hp]⟩
        · simp only [ne_eq, Decidable.not_not] at hp
          exact ⟨stovetop_est.getD 0, by omega, by simp [hp]⟩
      · exact ⟨Or.inl rfl, Or.inl rfl⟩
    · split
      · split
        · rename_i hsc
          refine ⟨Or.inr ⟨slow_cooker_est.getD 0, by omega, rfl⟩, Or.inr ?_⟩
          by_cases hp : prep.getD 0 ≠ 0
          · exact ⟨prep.getD 0 + slow_cooker_est.getD 0, by omega, by simp [hp]⟩
          · simp only [ne_eq, Decidable.not_not] at hp
            exact ⟨slow_cooker_est.getD 0, by omega, by simp [hp]⟩
        · exact ⟨Or.inl rfl, Or.inl rfl⟩
      · split
        · exact ⟨Or.inl rfl, Or.inl rfl⟩
        · exact ⟨Or.inl rfl, Or.inl rfl⟩

end Honeydo
